import Mathlib

/-!
Shallow embedding of `baseplate/lib/experiments/variant_sets/single_variant_set.py`
(class `SingleVariantSet`), followed by theorems about its behaviour.

Modelling conventions:
- Python dicts with the keys "name" and "size" become a structure with two
  `Option` fields; `d.get(k)` is the field itself, while `d[k]` (which can raise
  `KeyError`) is `dictItem`.
- Python list subscription `xs[i]` (which can raise `IndexError`) is `listItem`.
- Python `float` sizes are modelled as exact rationals `ℚ`; `int(x)` on a float
  truncates toward zero, modelled by `pyTrunc`.
- A Python function that can raise becomes a function into `Except String`.
- The constructor `SingleVariantSet.__init__` (which assigns the fields and then
  calls `_validate_variants`, so that a raised error leaves no usable object)
  becomes `mkSingleVariantSet`, returning the fully constructed record on
  success and the error otherwise.  The `variants` argument may be Python
  `None`, hence `Option (List Variant)`.
-/

/-- A Python variant dict: the keys "name" and "size" may each be missing. -/
structure Variant where
  name : Option String
  size : Option ℚ
deriving DecidableEq

/-- The `SingleVariantSet` object after a successful `__init__`: the stored
`self.variants` list and `self.num_buckets` (a Python `int`, hence `ℤ`). -/
structure SingleVariantSet where
  variants : List Variant
  num_buckets : ℤ
deriving DecidableEq

/-- Python `int(x)`: truncation toward zero (floor for nonnegative `x`,
ceiling for negative `x`). -/
def pyTrunc (q : ℚ) : ℤ := if 0 ≤ q then ⌊q⌋ else ⌈q⌉

/-- Python dict subscription `d[key]` where the field models `d.get(key)`:
raises `KeyError` when the key is absent. -/
def dictItem {α : Type} (v : Option α) (key : String) : Except String α :=
  match v with
  | some x => Except.ok x
  | none => Except.error ("KeyError: ".append key)

/-- Python list subscription `xs[i]`: raises `IndexError` when out of range. -/
def listItem {α : Type} (xs : List α) (i : Nat) : Except String α :=
  match xs[i]? with
  | some x => Except.ok x
  | none => Except.error ("IndexError: list index out of range")

/-- `SingleVariantSet._validate_variants`.  The source checks, in order:
`variants is None`; `len(variants) != 2`; `variants[0].get("size") is None or
variants[1].get("size") is None`; and finally whether
`variants[0]["size"] + variants[1]["size"]` lies outside `[0.0, 1.0]`.
(The length check precedes the element accesses, so the two-element match is
exactly the source's behaviour; the source's f-string detail of the
"size not provided" message is dropped.) -/
def validate_variants (variants : Option (List Variant)) : Except String Unit :=
  match variants with
  | none => Except.error ("No variants provided")
  | some [v0, v1] =>
    match v0.size, v1.size with
    | none, _ => Except.error ("Variant size not provided")
    | some _, none => Except.error ("Variant size not provided")
    | some s0, some s1 =>
      if s0 + s1 < 0 ∨ 1 < s0 + s1 then
        Except.error ("Sum of all variants must be between 0 and 1.")
      else
        Except.ok ()
  | some _ =>
    Except.error ("Single Variant experiments expect only one variant and one control.")

/-- `SingleVariantSet.__init__(variants, num_buckets)`: stores both fields and
runs `_validate_variants`; an exception during validation means no object is
produced.  (The Python default `num_buckets=1000` is passed explicitly at the
call sites below.) -/
def mkSingleVariantSet (variants : Option (List Variant)) (num_buckets : ℤ) :
    Except String SingleVariantSet :=
  match validate_variants variants, variants with
  | Except.error e, _ => Except.error e
  | Except.ok _, some vs => Except.ok ⟨vs, num_buckets⟩
  | Except.ok _, none => Except.error ("No variants provided")

/-- `SingleVariantSet.choose_variant(bucket)`:

    if bucket < int(self.variants[0]["size"] * self.num_buckets):
        return self.variants[0]["name"]
    if bucket >= self.num_buckets - int(self.variants[1]["size"] * self.num_buckets):
        return self.variants[1]["name"]
    return None

Subscriptions can raise, hence the `Except` result; `Except.ok` carries the
normal return value (a variant name or Python `None`). -/
def choose_variant (s : SingleVariantSet) (bucket : ℤ) : Except String (Option String) :=
  match listItem s.variants 0 with
  | Except.error e => Except.error e
  | Except.ok v0 =>
    match dictItem v0.size ("size") with
    | Except.error e => Except.error e
    | Except.ok s0 =>
      if bucket < pyTrunc (s0 * s.num_buckets) then
        match dictItem v0.name ("name") with
        | Except.error e => Except.error e
        | Except.ok n0 => Except.ok (some n0)
      else
        match listItem s.variants 1 with
        | Except.error e => Except.error e
        | Except.ok v1 =>
          match dictItem v1.size ("size") with
          | Except.error e => Except.error e
          | Except.ok s1 =>
            if s.num_buckets - pyTrunc (s1 * s.num_buckets) ≤ bucket then
              match dictItem v1.name ("name") with
              | Except.error e => Except.error e
              | Except.ok n1 => Except.ok (some n1)
            else
              Except.ok none

/-- `SingleVariantSet.__contains__(item)`: Python's short-circuiting
`variants[0].get("name") == item or variants[1].get("name") == item`
(`.get` cannot raise; the subscriptions `variants[0]`/`variants[1]` can). -/
def contains_item (s : SingleVariantSet) (item : String) : Except String Bool :=
  match listItem s.variants 0 with
  | Except.error e => Except.error e
  | Except.ok v0 =>
    if v0.name = some item then
      Except.ok true
    else
      match listItem s.variants 1 with
      | Except.error e => Except.error e
      | Except.ok v1 =>
        if v1.name = some item then
          Except.ok true
        else
          Except.ok false

/-- `choose_variant` with its two branch tests performed in the opposite
order (high-end test first); used to express that the branch order is
immaterial on validated configurations. -/
def choose_variant_high_first (s : SingleVariantSet) (bucket : ℤ) :
    Except String (Option String) :=
  match listItem s.variants 1 with
  | Except.error e => Except.error e
  | Except.ok v1 =>
    match dictItem v1.size ("size") with
    | Except.error e => Except.error e
    | Except.ok s1 =>
      if s.num_buckets - pyTrunc (s1 * s.num_buckets) ≤ bucket then
        match dictItem v1.name ("name") with
        | Except.error e => Except.error e
        | Except.ok n1 => Except.ok (some n1)
      else
        match listItem s.variants 0 with
        | Except.error e => Except.error e
        | Except.ok v0 =>
          match dictItem v0.size ("size") with
          | Except.error e => Except.error e
          | Except.ok s0 =>
            if bucket < pyTrunc (s0 * s.num_buckets) then
              match dictItem v0.name ("name") with
              | Except.error e => Except.error e
              | Except.ok n0 => Except.ok (some n0)
            else
              Except.ok none

/-- Whether an `Except` result is an error. -/
def isError {ε α : Type} : Except ε α → Bool
  | Except.error _ => true
  | Except.ok _ => false

/-- The partition rule exactly as the spec words it (claim C1), with `floor`:
`lowWidth = floor(p0 * N)`, `highWidth = floor(p1 * N)`; the low outcome wins
below `lowWidth`, the high outcome wins from `N - highWidth` on, otherwise no
assignment. -/
def specChooseFloor (p0 p1 : ℚ) (n0 n1 : String) (bucketCount bucketIndex : ℤ) :
    Option String :=
  if bucketIndex < ⌊p0 * bucketCount⌋ then some n0
  else if bucketCount - ⌊p1 * bucketCount⌋ ≤ bucketIndex then some n1
  else none

/-- The partition rule with the widths computed by truncation toward zero
(Python `int()`), as the source actually does; coincides with
`specChooseFloor` whenever both products are nonnegative. -/
def specChooseTrunc (p0 p1 : ℚ) (n0 n1 : String) (bucketCount bucketIndex : ℤ) :
    Option String :=
  if bucketIndex < pyTrunc (p0 * bucketCount) then some n0
  else if bucketCount - pyTrunc (p1 * bucketCount) ≤ bucketIndex then some n1
  else none

/-- The construction-failure condition exactly as the spec words it (claim C3):
outcome list missing, outcome count not 2, a proportion missing, or the
proportions summing outside `[0, 1]`. -/
def specConstructionError : Option (List Variant) → Bool
  | none => true
  | some l =>
    match l with
    | [v0, v1] =>
      match v0.size, v1.size with
      | some p0, some p1 => decide (p0 + p1 < 0) || decide (1 < p0 + p1)
      | _, _ => true
    | _ => true

/-! ### Basic lemmas about the embedding -/

theorem pyTrunc_intCast (n : ℤ) : pyTrunc (n : ℚ) = n := by
  unfold pyTrunc
  split_ifs with h
  · exact Int.floor_intCast n
  · exact Int.ceil_intCast n

theorem pyTrunc_le_self {q : ℚ} (h : 0 ≤ q) : (pyTrunc q : ℚ) ≤ q := by
  unfold pyTrunc
  rw [if_pos h]
  exact Int.floor_le q

theorem pyTrunc_lt_add_one (q : ℚ) : (pyTrunc q : ℚ) < q + 1 := by
  unfold pyTrunc
  split_ifs with h
  · exact lt_of_le_of_lt (Int.floor_le q) (by linarith)
  · exact Int.ceil_lt_add_one q

theorem pyTrunc_mono {q r : ℚ} (h : q ≤ r) : pyTrunc q ≤ pyTrunc r := by
  unfold pyTrunc
  split_ifs with hq hr hr
  · exact Int.floor_le_floor h
  · exact absurd (le_trans hq h) hr
  · calc ⌈q⌉ ≤ ⌈(0 : ℚ)⌉ := Int.ceil_le_ceil (le_of_lt (lt_of_not_le hq))
    _ = 0 := by simp
    _ ≤ ⌊r⌋ := Int.floor_nonneg.mpr hr
  · exact Int.ceil_le_ceil h

/-- Key arithmetic fact behind the disjointness of the two regions: if the two
proportions sum to at most 1 (and at least 0, so that at most one of the two
products is negative) and the bucket count is positive, the two truncated
widths sum to at most the bucket count. -/
theorem pyTrunc_width_sum_le {p0 p1 : ℚ} {N : ℤ} (hN : 0 < N)
    (h0 : 0 ≤ p0 + p1) (h1 : p0 + p1 ≤ 1) :
    pyTrunc (p0 * N) + pyTrunc (p1 * N) ≤ N := by
  have hNQ : (0 : ℚ) < (N : ℚ) := by exact_mod_cast hN
  have hsum : p0 * N + p1 * N ≤ N := by
    have : (p0 + p1) * N ≤ 1 * N := by
      apply mul_le_mul_of_nonneg_right h1 (le_of_lt hNQ)
    calc p0 * N + p1 * N = (p0 + p1) * N := by ring
    _ ≤ 1 * N := this
    _ = N := one_mul _
  rcases le_or_lt 0 (p0 * N) with ha | ha
  · rcases le_or_lt 0 (p1 * N) with hb | hb
    · -- both products nonnegative: each truncation is below its product
      have := pyTrunc_le_self ha
      have := pyTrunc_le_self hb
      have hcast : ((pyTrunc (p0 * N) + pyTrunc (p1 * N) : ℤ) : ℚ) ≤ (N : ℚ) := by
        push_cast
        linarith
      exact_mod_cast hcast
    · -- second product negative: its truncation loses less than one
      have h1' := pyTrunc_lt_add_one (p1 * N)
      have h0' := pyTrunc_le_self ha
      have hcast : ((pyTrunc (p0 * N) + pyTrunc (p1 * N) : ℤ) : ℚ) < (N : ℚ) + 1 := by
        push_cast
        linarith
      have : pyTrunc (p0 * N) + pyTrunc (p1 * N) < N + 1 := by exact_mod_cast hcast
      omega
  · -- first product negative: then the second is nonnegative since the sum is
    have hb : 0 ≤ p1 * N := by nlinarith
    have h0' := pyTrunc_lt_add_one (p0 * N)
    have h1' := pyTrunc_le_self hb
    have hcast : ((pyTrunc (p0 * N) + pyTrunc (p1 * N) : ℤ) : ℚ) < (N : ℚ) + 1 := by
      push_cast
      linarith
    have : pyTrunc (p0 * N) + pyTrunc (p1 * N) < N + 1 := by exact_mod_cast hcast
    omega

/-- Evaluation of construction on a two-element variant list with both sizes
present: everything reduces to the sum-of-sizes range test. -/
theorem mk_named_eval (nm0 nm1 : Option String) (p0 p1 : ℚ) (N : ℤ) :
    mkSingleVariantSet (some [⟨nm0, some p0⟩, ⟨nm1, some p1⟩]) N =
      if p0 + p1 < 0 ∨ 1 < p0 + p1 then
        Except.error ("Sum of all variants must be between 0 and 1.")
      else
        Except.ok ⟨[⟨nm0, some p0⟩, ⟨nm1, some p1⟩], N⟩ := by
  have hval : validate_variants (some [⟨nm0, some p0⟩, ⟨nm1, some p1⟩]) =
      if p0 + p1 < 0 ∨ 1 < p0 + p1 then
        Except.error ("Sum of all variants must be between 0 and 1.")
      else
        Except.ok () := rfl
  unfold mkSingleVariantSet
  rw [hval]
  split_ifs with h <;> rfl

/-- Inversion of construction for a two-element variant list with both sizes
present: construction succeeds exactly when the sizes sum into `[0, 1]`, and
the constructed object stores the given data unchanged. -/
theorem mk_named_ok_iff (nm0 nm1 : Option String) (p0 p1 : ℚ) (N : ℤ)
    (s : SingleVariantSet) :
    mkSingleVariantSet (some [⟨nm0, some p0⟩, ⟨nm1, some p1⟩]) N = Except.ok s ↔
      0 ≤ p0 + p1 ∧ p0 + p1 ≤ 1 ∧ s = ⟨[⟨nm0, some p0⟩, ⟨nm1, some p1⟩], N⟩ := by
  rw [mk_named_eval]
  split_ifs with h
  · simp only [reduceCtorEq, false_iff, not_and]
    intro h0 h1
    rcases h with h | h
    · exact absurd h0 (not_le.mpr h)
    · exact fun _ => absurd h1 (not_le.mpr h)
  · push_neg at h
    simp only [Except.ok.injEq]
    constructor
    · intro he
      exact ⟨h.1, h.2, he.symm⟩
    · rintro ⟨-, -, rfl⟩
      rfl

/-- Evaluation of `choose_variant` on an object whose variant list is two
fully-populated dicts: it returns (without error) exactly the truncation rule. -/
theorem choose_variant_eval (n0 n1 : String) (p0 p1 : ℚ) (N b : ℤ) :
    choose_variant ⟨[⟨some n0, some p0⟩, ⟨some n1, some p1⟩], N⟩ b =
      Except.ok (specChooseTrunc p0 p1 n0 n1 N b) := by
  unfold choose_variant specChooseTrunc listItem dictItem
  simp only [List.getElem?_cons_zero, List.getElem?_cons_succ]
  split_ifs <;> rfl

/-- Evaluation of `choose_variant` when both sizes are present but the names
may be missing: the winning side's name lookup may raise `KeyError`. -/
theorem choose_variant_eval_opt (nm0 nm1 : Option String) (p0 p1 : ℚ) (N b : ℤ) :
    choose_variant ⟨[⟨nm0, some p0⟩, ⟨nm1, some p1⟩], N⟩ b =
      if b < pyTrunc (p0 * N) then Except.map some (dictItem nm0 ("name"))
      else if N - pyTrunc (p1 * N) ≤ b then Except.map some (dictItem nm1 ("name"))
      else Except.ok none := by
  unfold choose_variant listItem dictItem
  simp only [List.getElem?_cons_zero, List.getElem?_cons_succ]
  cases nm0 <;> cases nm1 <;> split_ifs <;> rfl

/-- Same evaluation for the branch-order-swapped variant of `choose_variant`. -/
theorem choose_variant_high_first_eval_opt (nm0 nm1 : Option String) (p0 p1 : ℚ)
    (N b : ℤ) :
    choose_variant_high_first ⟨[⟨nm0, some p0⟩, ⟨nm1, some p1⟩], N⟩ b =
      if N - pyTrunc (p1 * N) ≤ b then Except.map some (dictItem nm1 ("name"))
      else if b < pyTrunc (p0 * N) then Except.map some (dictItem nm0 ("name"))
      else Except.ok none := by
  unfold choose_variant_high_first listItem dictItem
  simp only [List.getElem?_cons_zero, List.getElem?_cons_succ]
  cases nm0 <;> cases nm1 <;> split_ifs <;> rfl

/-- Evaluation of `contains_item` on a two-element variant list. -/
theorem contains_item_eval (v0 v1 : Variant) (N : ℤ) (item : String) :
    contains_item ⟨[v0, v1], N⟩ item =
      Except.ok (decide (v0.name = some item) || decide (v1.name = some item)) := by
  unfold contains_item listItem
  simp only [List.getElem?_cons_zero, List.getElem?_cons_succ]
  split_ifs with h0 h1 <;> simp [*]

/-- A successful construction stores exactly the supplied list and bucket
count (no partial construction, no normalization). -/
theorem mk_ok_fields {vs : Option (List Variant)} {N : ℤ} {s : SingleVariantSet}
    (h : mkSingleVariantSet vs N = Except.ok s) :
    vs = some s.variants ∧ s.num_buckets = N := by
  cases vs with
  | none => exact Except.noConfusion h
  | some l =>
    unfold mkSingleVariantSet at h
    cases hv : validate_variants (some l) with
    | error e =>
      rw [hv] at h
      exact Except.noConfusion h
    | ok u =>
      rw [hv] at h
      injection h with h2
      subst h2
      exact ⟨rfl, rfl⟩

/-! ### Claim C1 -/

/-- C1 as written is false: the spec states the widths with `floor`, but the
source computes them with Python `int()`, which truncates toward zero.
Validation only bounds the SUM of the proportions, so a negative first
proportion is accepted: with outcomes `[(A, -0.5), (B, 1.0)]` (sum `0.5`,
so construction succeeds; both floats are exactly representable) and
`bucketCount = 1`, at `bucketIndex = -1` the code computes
`int(-0.5) = 0` and returns `A`, while the spec's floor rule computes
`floor(-0.5) = -1` and returns no assignment. -/
theorem choose_variant_floor_rule_counterexample :
    mkSingleVariantSet (some [⟨some "A", some (-1/2)⟩, ⟨some "B", some 1⟩]) 1 =
      Except.ok ⟨[⟨some "A", some (-1/2)⟩, ⟨some "B", some 1⟩], 1⟩ ∧
    choose_variant ⟨[⟨some "A", some (-1/2)⟩, ⟨some "B", some 1⟩], 1⟩ (-1) =
      Except.ok (some "A") ∧
    specChooseFloor (-1/2) 1 "A" "B" 1 (-1) = none := by
  refine ⟨?_, ?_, ?_⟩
  · rw [mk_named_eval]
    norm_num
  · rw [choose_variant_eval]
    norm_num [specChooseTrunc, pyTrunc, Int.le_floor, Int.floor_lt, Int.ceil_le, Int.lt_ceil]
  · norm_num [specChooseFloor, Int.le_floor, Int.floor_lt]

/-- C1 (amended): for every successfully constructed `SingleVariantSet` with
outcomes `(n0, p0)`, `(n1, p1)` and bucket count `N`, and every integer
bucket `b`, `choose_variant` returns `n0` if `b < trunc(p0 * N)`, otherwise
`n1` if `b ≥ N - trunc(p1 * N)`, otherwise no assignment — where `trunc` is
truncation toward zero (Python `int()`), which agrees with the spec's `floor`
whenever the proportions are nonnegative. -/
theorem choose_variant_trunc_rule (n0 n1 : String) (p0 p1 : ℚ) (N : ℤ)
    (s : SingleVariantSet) (b : ℤ)
    (hmk : mkSingleVariantSet (some [⟨some n0, some p0⟩, ⟨some n1, some p1⟩]) N =
      Except.ok s) :
    choose_variant s b = Except.ok (specChooseTrunc p0 p1 n0 n1 N b) := by
  rcases (mk_named_ok_iff _ _ _ _ _ _).mp hmk with ⟨-, -, rfl⟩
  exact choose_variant_eval n0 n1 p0 p1 N b

/-- Witness for C1 (amended) at a concrete configuration. -/
theorem choose_variant_trunc_rule_witness :
    choose_variant ⟨[⟨some "A", some (2/5)⟩, ⟨some "B", some (3/10)⟩], 1000⟩ 500 =
      Except.ok (specChooseTrunc (2/5) (3/10) "A" "B" 1000 500) :=
  choose_variant_trunc_rule "A" "B" (2/5) (3/10) 1000 _ 500
    (by rw [mk_named_eval]; norm_num)

/-! ### Claim C2 -/

/-- C2: with outcomes `[(A, 0.4), (B, 0.3)]` and `bucketCount = 1000` (all
values exact in the rational model, and the Python float computations round
to the same widths 400 and 300), `choose_variant` returns `A` at buckets 0
and 399, no assignment at 400 and 699, and `B` at 700 and 999. -/
theorem choose_variant_boundary_values :
    mkSingleVariantSet (some [⟨some "A", some (2/5)⟩, ⟨some "B", some (3/10)⟩]) 1000 =
      Except.ok ⟨[⟨some "A", some (2/5)⟩, ⟨some "B", some (3/10)⟩], 1000⟩ ∧
    choose_variant ⟨[⟨some "A", some (2/5)⟩, ⟨some "B", some (3/10)⟩], 1000⟩ 0 =
      Except.ok (some "A") ∧
    choose_variant ⟨[⟨some "A", some (2/5)⟩, ⟨some "B", some (3/10)⟩], 1000⟩ 399 =
      Except.ok (some "A") ∧
    choose_variant ⟨[⟨some "A", some (2/5)⟩, ⟨some "B", some (3/10)⟩], 1000⟩ 400 =
      Except.ok none ∧
    choose_variant ⟨[⟨some "A", some (2/5)⟩, ⟨some "B", some (3/10)⟩], 1000⟩ 699 =
      Except.ok none ∧
    choose_variant ⟨[⟨some "A", some (2/5)⟩, ⟨some "B", some (3/10)⟩], 1000⟩ 700 =
      Except.ok (some "B") ∧
    choose_variant ⟨[⟨some "A", some (2/5)⟩, ⟨some "B", some (3/10)⟩], 1000⟩ 999 =
      Except.ok (some "B") := by
  refine ⟨?_, ?_, ?_, ?_, ?_, ?_, ?_⟩
  · rw [mk_named_eval]
    norm_num
  all_goals
    rw [choose_variant_eval]
    norm_num [specChooseTrunc, pyTrunc, Int.le_floor, Int.floor_lt, Int.ceil_le, Int.lt_ceil]

/-! ### Claim C3 -/

/-- C3: construction raises exactly in the cases the spec lists — outcome
list missing, outcome count not 2, a missing proportion, or proportions
summing outside `[0, 1]` (the Boolean `specConstructionError`, transcribed
from the spec's words) — and on success the object holds exactly the supplied
configuration, fully formed. -/
theorem mk_error_characterization (vs : Option (List Variant)) (N : ℤ)
    (s : SingleVariantSet) :
    isError (mkSingleVariantSet vs N) = specConstructionError vs ∧
    (mkSingleVariantSet vs N = Except.ok s → vs = some s.variants ∧ s.num_buckets = N) := by
  constructor
  · cases vs with
    | none => rfl
    | some l =>
      match l with
      | [] => rfl
      | [v] => rfl
      | v0 :: v1 :: v2 :: rest => rfl
      | [v0, v1] =>
        obtain ⟨nm0, sz0⟩ := v0
        obtain ⟨nm1, sz1⟩ := v1
        cases sz0 with
        | none => rfl
        | some p0 =>
          cases sz1 with
          | none => rfl
          | some p1 =>
            rw [mk_named_eval]
            split_ifs with h
            · rcases h with h | h <;> simp [isError, specConstructionError, h]
            · push_neg at h
              simp [isError, specConstructionError, not_lt.mpr h.1, not_lt.mpr h.2]
  · exact mk_ok_fields

/-- Witness for C3 at a concrete configuration. -/
theorem mk_error_characterization_witness :
    isError (mkSingleVariantSet (some [⟨some "A", some (1/2)⟩, ⟨some "B", some (1/4)⟩]) 7) =
      specConstructionError (some [⟨some "A", some (1/2)⟩, ⟨some "B", some (1/4)⟩]) ∧
    (mkSingleVariantSet (some [⟨some "A", some (1/2)⟩, ⟨some "B", some (1/4)⟩]) 7 =
        Except.ok (⟨[⟨some "A", some (1/2)⟩, ⟨some "B", some (1/4)⟩], 7⟩ : SingleVariantSet) →
      some [⟨some "A", some (1/2)⟩, ⟨some "B", some (1/4)⟩] =
          some (⟨[⟨some "A", some (1/2)⟩, ⟨some "B", some (1/4)⟩], 7⟩ :
            SingleVariantSet).variants ∧
        (⟨[⟨some "A", some (1/2)⟩, ⟨some "B", some (1/4)⟩], 7⟩ :
          SingleVariantSet).num_buckets = 7) :=
  mk_error_characterization
    (some [⟨some "A", some (1/2)⟩, ⟨some "B", some (1/4)⟩]) 7
    (⟨[⟨some "A", some (1/2)⟩, ⟨some "B", some (1/4)⟩], 7⟩ : SingleVariantSet)

/-! ### Claim C4 -/

/-- C4 as written is false: `__init__` performs no check on `num_buckets`
at all, so a zero (or negative) bucket count is accepted and an entity with
`num_buckets = 0` is constructed. -/
theorem mk_accepts_zero_buckets :
    mkSingleVariantSet (some [⟨some "A", some (1/2)⟩, ⟨some "B", some (1/2)⟩]) 0 =
      Except.ok ⟨[⟨some "A", some (1/2)⟩, ⟨some "B", some (1/2)⟩], 0⟩ := by
  rw [mk_named_eval]
  norm_num

/-- C4 (amended): construction never validates the bucket count — whether
construction succeeds is entirely independent of `num_buckets`, so entities
with zero or negative bucket counts are constructible whenever the variant
list itself is valid. -/
theorem mk_ignores_num_buckets (vs : Option (List Variant)) (N M : ℤ) :
    isError (mkSingleVariantSet vs N) = isError (mkSingleVariantSet vs M) := by
  cases vs with
  | none => rfl
  | some l =>
    unfold mkSingleVariantSet
    cases validate_variants (some l) <;> rfl

/-! ### Claim C5 -/

/-- C5 as written is false: validation checks only the "size" keys, never the
"name" keys, so construction succeeds on `[{"size": 0.5}, {"name": "B",
"size": 0.5}]`; the subsequent `choose_variant(0)` takes the first branch and
evaluates `variants[0]["name"]`, raising `KeyError` — a runtime error after a
successful construction. -/
theorem choose_variant_keyerror_counterexample :
    mkSingleVariantSet (some [⟨none, some (1/2)⟩, ⟨some "B", some (1/2)⟩]) 1000 =
      Except.ok ⟨[⟨none, some (1/2)⟩, ⟨some "B", some (1/2)⟩], 1000⟩ ∧
    choose_variant ⟨[⟨none, some (1/2)⟩, ⟨some "B", some (1/2)⟩], 1000⟩ 0 =
      Except.error ("KeyError: name") := by
  constructor
  · rw [mk_named_eval]
    norm_num
  · rw [choose_variant_eval_opt]
    norm_num [pyTrunc, Int.le_floor, Int.floor_lt, Int.ceil_le, Int.lt_ceil]
    rfl

/-- C5 (amended): for every configuration accepted by construction IN WHICH
BOTH OUTCOMES CARRY A NAME, `choose_variant` is total — it returns one of the
two names or no assignment for every integer bucket — and `contains_item`
never fails for any string, construction notwithstanding names being
unvalidated. -/
theorem choose_contains_total_with_names (n0 n1 : String) (p0 p1 : ℚ) (N : ℤ)
    (s : SingleVariantSet) (b : ℤ) (item : String)
    (hmk : mkSingleVariantSet (some [⟨some n0, some p0⟩, ⟨some n1, some p1⟩]) N =
      Except.ok s) :
    (choose_variant s b = Except.ok (some n0) ∨
      choose_variant s b = Except.ok (some n1) ∨
      choose_variant s b = Except.ok none) ∧
    isError (contains_item s item) = false := by
  rcases (mk_named_ok_iff _ _ _ _ _ _).mp hmk with ⟨-, -, rfl⟩
  constructor
  · rw [choose_variant_eval]
    unfold specChooseTrunc
    split_ifs <;> simp
  · rw [contains_item_eval]
    rfl

/-- Witness for C5 (amended) at a concrete configuration. -/
theorem choose_contains_total_with_names_witness :
    (choose_variant ⟨[⟨some "A", some (2/5)⟩, ⟨some "B", some (3/10)⟩], 1000⟩ 450 =
        Except.ok (some "A") ∨
      choose_variant ⟨[⟨some "A", some (2/5)⟩, ⟨some "B", some (3/10)⟩], 1000⟩ 450 =
        Except.ok (some "B") ∨
      choose_variant ⟨[⟨some "A", some (2/5)⟩, ⟨some "B", some (3/10)⟩], 1000⟩ 450 =
        Except.ok none) ∧
    isError (contains_item ⟨[⟨some "A", some (2/5)⟩, ⟨some "B", some (3/10)⟩], 1000⟩
      "A") = false :=
  choose_contains_total_with_names "A" "B" (2/5) (3/10) 1000 _ 450 "A"
    (by rw [mk_named_eval]; norm_num)

/-! ### Claim C6 -/

/-- C6 as written is false: construction never validates the bucket count
(see `mk_accepts_zero_buckets`), and for a NEGATIVE bucket count the two
regions overlap and growing `A`'s proportion flips an index from `A` to `B`.
With `bucketCount = -4`, fixed `B` proportion `0.25`, and `A` growing from
`0.25` to `0.5` (all floats exact), bucket `-2` is assigned `A` before the
resize and `B` after it. -/
theorem resize_stability_counterexample :
    mkSingleVariantSet (some [⟨some "A", some (1/4)⟩, ⟨some "B", some (1/4)⟩]) (-4) =
      Except.ok ⟨[⟨some "A", some (1/4)⟩, ⟨some "B", some (1/4)⟩], -4⟩ ∧
    mkSingleVariantSet (some [⟨some "A", some (1/2)⟩, ⟨some "B", some (1/4)⟩]) (-4) =
      Except.ok ⟨[⟨some "A", some (1/2)⟩, ⟨some "B", some (1/4)⟩], -4⟩ ∧
    (1/4 : ℚ) < 1/2 ∧
    choose_variant ⟨[⟨some "A", some (1/4)⟩, ⟨some "B", some (1/4)⟩], -4⟩ (-2) =
      Except.ok (some "A") ∧
    choose_variant ⟨[⟨some "A", some (1/2)⟩, ⟨some "B", some (1/4)⟩], -4⟩ (-2) =
      Except.ok (some "B") := by
  refine ⟨?_, ?_, by norm_num, ?_, ?_⟩
  · rw [mk_named_eval]
    norm_num
  · rw [mk_named_eval]
    norm_num
  · rw [choose_variant_eval]
    norm_num [specChooseTrunc, pyTrunc, Int.le_floor, Int.floor_lt, Int.ceil_le, Int.lt_ceil]
  · rw [choose_variant_eval]
    norm_num [specChooseTrunc, pyTrunc, Int.le_floor, Int.floor_lt, Int.ceil_le, Int.lt_ceil,
      Int.ceil_neg, Int.floor_neg, Int.floor_one, Int.ceil_one]

/-- C6 (amended): for a POSITIVE bucket count, two valid configurations with
the same names and bucket count, the same `B` proportion, and `A`'s
proportion increased, preserve every existing assignment: any bucket the
first partition assigns to `A` or to `B` receives the same assignment from
the second (only previously unassigned buckets can change). -/
theorem resize_stability (n0 n1 : String) (pA pA' q : ℚ) (N : ℤ)
    (s1 s2 : SingleVariantSet) (b : ℤ)
    (h1 : mkSingleVariantSet (some [⟨some n0, some pA⟩, ⟨some n1, some q⟩]) N =
      Except.ok s1)
    (h2 : mkSingleVariantSet (some [⟨some n0, some pA'⟩, ⟨some n1, some q⟩]) N =
      Except.ok s2)
    (hlt : pA < pA') (hN : 0 < N) :
    (choose_variant s1 b = Except.ok (some n0) →
      choose_variant s2 b = Except.ok (some n0)) ∧
    (choose_variant s1 b = Except.ok (some n1) →
      choose_variant s2 b = Except.ok (some n1)) := by
  rcases (mk_named_ok_iff _ _ _ _ _ _).mp h1 with ⟨-, -, rfl⟩
  rcases (mk_named_ok_iff _ _ _ _ _ _).mp h2 with ⟨hs2a, hs2b, rfl⟩
  have hNQ : (0 : ℚ) ≤ (N : ℚ) := by
    have : (0 : ℚ) < (N : ℚ) := by exact_mod_cast hN
    linarith
  have hmono : pyTrunc (pA * N) ≤ pyTrunc (pA' * N) :=
    pyTrunc_mono (mul_le_mul_of_nonneg_right hlt.le hNQ)
  have hdisj : pyTrunc (pA' * N) + pyTrunc (q * N) ≤ N :=
    pyTrunc_width_sum_le hN hs2a hs2b
  rw [choose_variant_eval, choose_variant_eval]
  unfold specChooseTrunc
  constructor
  · intro h
    split_ifs at h with c1 c2
    · rw [if_pos (lt_of_lt_of_le c1 hmono)]
    · -- the first partition answered from the high branch, so the names match
      injection h with h
      injection h with h
      have hno : ¬ b < pyTrunc (pA' * N) := by omega
      rw [if_neg hno, if_pos c2, h]
    · exact absurd h (by simp)
  · intro h
    split_ifs at h with c1 c2
    · -- the first partition answered from the low branch, so the names match
      injection h with h
      injection h with h
      rw [if_pos (lt_of_lt_of_le c1 hmono), h]
    · have hno : ¬ b < pyTrunc (pA' * N) := by omega
      rw [if_neg hno, if_pos c2]
    · exact absurd h (by simp)

/-- Witness for C6 (amended) at a concrete resize (A grows 0.25 to 0.5, B
fixed at 0.25, 1000 buckets, bucket 100). -/
theorem resize_stability_witness :
    (choose_variant ⟨[⟨some "A", some (1/4)⟩, ⟨some "B", some (1/4)⟩], 1000⟩ 100 =
        Except.ok (some "A") →
      choose_variant ⟨[⟨some "A", some (1/2)⟩, ⟨some "B", some (1/4)⟩], 1000⟩ 100 =
        Except.ok (some "A")) ∧
    (choose_variant ⟨[⟨some "A", some (1/4)⟩, ⟨some "B", some (1/4)⟩], 1000⟩ 100 =
        Except.ok (some "B") →
      choose_variant ⟨[⟨some "A", some (1/2)⟩, ⟨some "B", some (1/4)⟩], 1000⟩ 100 =
        Except.ok (some "B")) :=
  resize_stability "A" "B" (1/4) (1/2) (1/4) 1000 _ _ 100
    (by rw [mk_named_eval]; norm_num)
    (by rw [mk_named_eval]; norm_num)
    (by norm_num)
    (by norm_num)

/-! ### Claim C7 -/

/-- C7 as written is false: proportions summing to exactly 1 do NOT always
cover every in-range bucket, because each width is truncated separately.
With `[(A, 0.5), (B, 0.5)]` and `bucketCount = 3` (0.5*3 = 1.5 is exact in
floats and truncates to 1), bucket 1 satisfies neither `1 < 1` nor
`1 >= 3 - 1` and is unassigned. -/
theorem full_allocation_gap_counterexample :
    mkSingleVariantSet (some [⟨some "A", some (1/2)⟩, ⟨some "B", some (1/2)⟩]) 3 =
      Except.ok ⟨[⟨some "A", some (1/2)⟩, ⟨some "B", some (1/2)⟩], 3⟩ ∧
    (1/2 : ℚ) + 1/2 = 1 ∧
    choose_variant ⟨[⟨some "A", some (1/2)⟩, ⟨some "B", some (1/2)⟩], 3⟩ 1 =
      Except.ok none := by
  refine ⟨?_, by norm_num, ?_⟩
  · rw [mk_named_eval]
    norm_num
  · rw [choose_variant_eval]
    norm_num [specChooseTrunc, pyTrunc, Int.le_floor, Int.floor_lt, Int.ceil_le, Int.lt_ceil]

/-- C7 (amended): if the two proportions sum to exactly 1 AND the first
width is exact (`p0 * N` is an integer `k`, so no truncation loss occurs,
as in the spec's own 0.5/0.5/100 example), every in-range bucket is assigned
to one of the two outcomes. -/
theorem full_allocation_exact (n0 n1 : String) (p0 p1 : ℚ) (N : ℤ)
    (s : SingleVariantSet) (b k : ℤ)
    (hmk : mkSingleVariantSet (some [⟨some n0, some p0⟩, ⟨some n1, some p1⟩]) N =
      Except.ok s)
    (hsum : p0 + p1 = 1) (hk : (k : ℚ) = p0 * N)
    (_hb0 : 0 ≤ b) (_hbN : b < N) :
    choose_variant s b = Except.ok (some n0) ∨
      choose_variant s b = Except.ok (some n1) := by
  rcases (mk_named_ok_iff _ _ _ _ _ _).mp hmk with ⟨-, -, rfl⟩
  rw [choose_variant_eval]
  unfold specChooseTrunc
  have h0 : pyTrunc (p0 * N) = k := by
    rw [← hk, pyTrunc_intCast]
  have h1 : pyTrunc (p1 * N) = N - k := by
    have hcast : p1 * (N : ℚ) = ((N - k : ℤ) : ℚ) := by
      push_cast
      rw [hk]
      have : p1 = 1 - p0 := by linarith
      rw [this]
      ring
    rw [hcast, pyTrunc_intCast]
  rw [h0, h1]
  by_cases hc : b < k
  · rw [if_pos hc]
    left
    rfl
  · have : N - (N - k) ≤ b := by omega
    rw [if_neg hc, if_pos this]
    right
    rfl

/-- Witness for C7 (amended): the spec's own 0.5/0.5/100 example at bucket 37. -/
theorem full_allocation_exact_witness :
    choose_variant ⟨[⟨some "A", some (1/2)⟩, ⟨some "B", some (1/2)⟩], 100⟩ 37 =
        Except.ok (some "A") ∨
      choose_variant ⟨[⟨some "A", some (1/2)⟩, ⟨some "B", some (1/2)⟩], 100⟩ 37 =
        Except.ok (some "B") :=
  full_allocation_exact "A" "B" (1/2) (1/2) 100 _ 37 50
    (by rw [mk_named_eval]; norm_num)
    (by norm_num)
    (by norm_num)
    (by norm_num)
    (by norm_num)

/-! ### Claim C8 -/

/-- C8 as written is false for out-of-range indices: with `[(A, 0.0),
(B, 1.0)]` and `bucketCount = 10`, the first width is `int(0.0 * 10) = 0`,
and the first branch test `bucket < 0` SUCCEEDS for the integer bucket `-1`,
so `choose_variant(-1)` returns `A` even though `A`'s proportion is 0 —
the zero-proportion outcome does win for some integer bucket index. -/
theorem zero_proportion_counterexample :
    mkSingleVariantSet (some [⟨some "A", some 0⟩, ⟨some "B", some 1⟩]) 10 =
      Except.ok ⟨[⟨some "A", some 0⟩, ⟨some "B", some 1⟩], 10⟩ ∧
    choose_variant ⟨[⟨some "A", some 0⟩, ⟨some "B", some 1⟩], 10⟩ (-1) =
      Except.ok (some "A") := by
  constructor
  · rw [mk_named_eval]
    norm_num
  · rw [choose_variant_eval]
    norm_num [specChooseTrunc, pyTrunc, Int.le_floor, Int.floor_lt, Int.ceil_le, Int.lt_ceil]

/-- C8 (amended): restricted to IN-RANGE bucket indices `0 ≤ b < N` (with the
two names distinct, as the spec's data model requires), an outcome whose
proportion is 0 has width 0 and never wins: `choose_variant` never returns its
name; and in the spec's concrete case `p0 = 0, p1 = 1` every in-range bucket
goes to the second outcome. -/
theorem zero_proportion_in_range (n0 n1 : String) (p0 p1 : ℚ) (N : ℤ)
    (s : SingleVariantSet) (b : ℤ)
    (hmk : mkSingleVariantSet (some [⟨some n0, some p0⟩, ⟨some n1, some p1⟩]) N =
      Except.ok s)
    (hne : n0 ≠ n1) (hb0 : 0 ≤ b) (hbN : b < N) :
    (p0 = 0 → pyTrunc (p0 * N) = 0 ∧ choose_variant s b ≠ Except.ok (some n0)) ∧
    (p1 = 0 → pyTrunc (p1 * N) = 0 ∧ choose_variant s b ≠ Except.ok (some n1)) ∧
    (p0 = 0 ∧ p1 = 1 → choose_variant s b = Except.ok (some n1)) := by
  rcases (mk_named_ok_iff _ _ _ _ _ _).mp hmk with ⟨-, -, rfl⟩
  rw [choose_variant_eval]
  unfold specChooseTrunc
  have hz : pyTrunc ((0 : ℚ) * (N : ℚ)) = 0 := by
    rw [zero_mul]
    exact_mod_cast pyTrunc_intCast 0
  have hone : pyTrunc ((1 : ℚ) * (N : ℚ)) = N := by
    rw [one_mul]
    exact pyTrunc_intCast N
  refine ⟨?_, ?_, ?_⟩
  · rintro rfl
    refine ⟨hz, ?_⟩
    rw [hz]
    rw [if_neg (by omega)]
    split_ifs
    · intro h
      injection h with h
      injection h with h
      exact hne h.symm
    · intro h
      injection h with h
      exact Option.noConfusion h
  · rintro rfl
    refine ⟨hz, ?_⟩
    rw [hz]
    rw [if_neg (by omega : ¬ (N - 0 ≤ b))]
    split_ifs
    · intro h
      injection h with h
      injection h with h
      exact hne h
    · intro h
      injection h with h
      exact Option.noConfusion h
  · rintro ⟨rfl, rfl⟩
    rw [hz, hone]
    rw [if_neg (by omega), if_pos (by omega)]

/-- Witness for C8 (amended): the spec's `[(A, 0.0), (B, 1.0)]`, 10 buckets,
bucket 3. -/
theorem zero_proportion_in_range_witness :
    ((0 : ℚ) = 0 → pyTrunc ((0 : ℚ) * (10 : ℤ)) = 0 ∧
      choose_variant ⟨[⟨some "A", some 0⟩, ⟨some "B", some 1⟩], 10⟩ 3 ≠
        Except.ok (some "A")) ∧
    ((1 : ℚ) = 0 → pyTrunc ((1 : ℚ) * (10 : ℤ)) = 0 ∧
      choose_variant ⟨[⟨some "A", some 0⟩, ⟨some "B", some 1⟩], 10⟩ 3 ≠
        Except.ok (some "B")) ∧
    ((0 : ℚ) = 0 ∧ (1 : ℚ) = 1 →
      choose_variant ⟨[⟨some "A", some 0⟩, ⟨some "B", some 1⟩], 10⟩ 3 =
        Except.ok (some "B")) :=
  zero_proportion_in_range "A" "B" 0 1 10 _ 3
    (by rw [mk_named_eval]; norm_num)
    (by decide)
    (by norm_num)
    (by norm_num)

/-! ### Claim C9 -/

/-- C9: on every constructed `SingleVariantSet`, `contains_item` never fails,
and returns `true` exactly when the queried string equals (case-sensitively,
as Lean's `String` equality is) the name of one of the two configured
outcomes — independently of the proportion values, which the statement never
mentions. -/
theorem contains_iff_name_match (v0 v1 : Variant) (N : ℤ) (s : SingleVariantSet)
    (item : String)
    (hmk : mkSingleVariantSet (some [v0, v1]) N = Except.ok s) :
    isError (contains_item s item) = false ∧
    (contains_item s item = Except.ok true ↔
      (v0.name = some item ∨ v1.name = some item)) := by
  obtain ⟨vars, nb⟩ := s
  obtain ⟨hv, hn⟩ := mk_ok_fields hmk
  injection hv with hv
  subst hv
  subst hn
  rw [contains_item_eval]
  constructor
  · rfl
  · simp

/-- Witness for C9: a zero-proportion outcome is still a member by name. -/
theorem contains_iff_name_match_witness :
    isError (contains_item ⟨[⟨some "A", some 1⟩, ⟨some "B", some 0⟩], 1000⟩ "B") =
      false ∧
    (contains_item ⟨[⟨some "A", some 1⟩, ⟨some "B", some 0⟩], 1000⟩ "B" =
        Except.ok true ↔
      ((⟨some "A", some 1⟩ : Variant).name = some "B" ∨
        (⟨some "B", some 0⟩ : Variant).name = some "B")) :=
  contains_iff_name_match ⟨some "A", some 1⟩ ⟨some "B", some 0⟩ 1000 _ "B"
    (by rw [mk_named_eval]; norm_num)

/-! ### Claim C10 -/

/-- C10: for every validated configuration (sizes present, sum in `[0, 1]`)
with a positive bucket count, the spec's two regions are disjoint
(`⌊p0*N⌋ ≤ N - ⌊p1*N⌋`), no bucket satisfies both of the code's actual
(truncation-based) branch tests, and consequently testing the high branch
first gives the same result as the source's low-branch-first order. -/
theorem regions_disjoint (nm0 nm1 : Option String) (p0 p1 : ℚ) (N : ℤ)
    (s : SingleVariantSet) (b : ℤ)
    (hmk : mkSingleVariantSet (some [⟨nm0, some p0⟩, ⟨nm1, some p1⟩]) N =
      Except.ok s)
    (hN : 0 < N) :
    ⌊p0 * (N : ℚ)⌋ ≤ N - ⌊p1 * (N : ℚ)⌋ ∧
    ¬(b < pyTrunc (p0 * N) ∧ N - pyTrunc (p1 * N) ≤ b) ∧
    choose_variant s b = choose_variant_high_first s b := by
  rcases (mk_named_ok_iff _ _ _ _ _ _).mp hmk with ⟨h0, h1, rfl⟩
  have hNQ : (0 : ℚ) ≤ (N : ℚ) := by
    have : (0 : ℚ) < (N : ℚ) := by exact_mod_cast hN
    linarith
  have hsum := pyTrunc_width_sum_le hN h0 h1
  refine ⟨?_, ?_, ?_⟩
  · have ha := Int.floor_le (p0 * (N : ℚ))
    have hb := Int.floor_le (p1 * (N : ℚ))
    have hprod : p0 * (N : ℚ) + p1 * (N : ℚ) ≤ (N : ℚ) := by nlinarith
    have hcast : ((⌊p0 * (N : ℚ)⌋ + ⌊p1 * (N : ℚ)⌋ : ℤ) : ℚ) ≤ (N : ℚ) := by
      push_cast
      linarith
    have : ⌊p0 * (N : ℚ)⌋ + ⌊p1 * (N : ℚ)⌋ ≤ N := by exact_mod_cast hcast
    omega
  · rintro ⟨hc1, hc2⟩
    omega
  · rw [choose_variant_eval_opt, choose_variant_high_first_eval_opt]
    by_cases c1 : b < pyTrunc (p0 * N)
    · have c2 : ¬ (N - pyTrunc (p1 * N) ≤ b) := by omega
      rw [if_pos c1, if_neg c2, if_pos c1]
    · rw [if_neg c1]
      by_cases c2 : N - pyTrunc (p1 * N) ≤ b
      · rw [if_pos c2, if_pos c2]
      · rw [if_neg c2, if_neg c2, if_neg c1]

/-- Witness for C10 at the 0.4/0.3/1000 configuration, bucket 550 (inside
the unallocated middle band). -/
theorem regions_disjoint_witness :
    ⌊(2/5 : ℚ) * ((1000 : ℤ) : ℚ)⌋ ≤ 1000 - ⌊(3/10 : ℚ) * ((1000 : ℤ) : ℚ)⌋ ∧
    ¬((550 : ℤ) < pyTrunc ((2/5 : ℚ) * ((1000 : ℤ) : ℚ)) ∧
      (1000 : ℤ) - pyTrunc ((3/10 : ℚ) * ((1000 : ℤ) : ℚ)) ≤ 550) ∧
    choose_variant ⟨[⟨some "A", some (2/5)⟩, ⟨some "B", some (3/10)⟩], 1000⟩ 550 =
      choose_variant_high_first
        ⟨[⟨some "A", some (2/5)⟩, ⟨some "B", some (3/10)⟩], 1000⟩ 550 :=
  regions_disjoint (some "A") (some "B") (2/5) (3/10) 1000 _ 550
    (by rw [mk_named_eval]; norm_num)
    (by norm_num)
